import Mathlib

/-!
Shallow embedding of the Email-Hacks repository: two near-duplicate Streamlit
scripts (src/EmailHacks.py and src/unnamed/part_000) that look up a user-supplied
email against the email-breach-search RapidAPI endpoint, render the returned
breach records, classify them by exposed-row count, chart them, and export them.

The embedding models each script as a pure function of its inputs: the
environment (for the RapidAPI variable), the text-input values, and an HTTP
oracle mapping the single outgoing request to its outcome.  Streamlit calls
become fields of an output record: messages shown, requests issued, whether
st.stop halted the script, the displayed table, the charts drawn and the
downloads offered.
-/

/-- One breach record as the code consumes it: the scripts read the fields
id, name, breach_date, upload_date, rows, and optionally summary and icon
from each element of the JSON array returned by the API. -/
structure BreachRecord where
  id : String
  name : String
  breach_date : String
  upload_date : String
  rows : Int
  summary : Option String
  icon : Option String
deriving Repr, DecidableEq

/-- An outgoing HTTP request: the URL and the header list passed to
requests.get. -/
structure HttpRequest where
  url : String
  headers : List (String × String)
deriving Repr, DecidableEq

/-- Outcome of the one requests.get call: either the request itself fails
(connection-level RequestException carrying a message), or a response arrives
with a status code and a JSON body.  The scripts only ever treat the body as a
list of breach records, so the body is modelled at that type. -/
inductive HttpResult where
  | connError (msg : String)
  | response (status : Nat) (body : List BreachRecord)
deriving Repr, DecidableEq

/-- A Streamlit message shown to the user: st.error, st.warning or st.info. -/
inductive Message where
  | error (s : String)
  | warning (s : String)
  | info (s : String)
deriving Repr, DecidableEq

/-- Models requests.Response.raise_for_status, which raises HTTPError exactly
for client errors (400-499) and server errors (500-599). -/
def raisesForStatus (status : Nat) : Bool :=
  decide (400 ≤ status) && decide (status < 600)

/-- Whether the library call raises a requests.exceptions.RequestException for
this outcome: a connection failure always does, a received response does so
exactly when raise_for_status raises. -/
def requestException : HttpResult → Bool
  | .connError _ => true
  | .response status _ => raisesForStatus status

/-- The parsed JSON body of an outcome that produced a response. -/
def jsonOf : HttpResult → Option (List BreachRecord)
  | .connError _ => none
  | .response _ body => some body

/-- API_HOST as defined in src/EmailHacks.py line 40. -/
def API_HOST_v1 : String := "email-breach-search.p.rapidapi.com"

/-- API_HOST as defined in src/unnamed/part_000 line 21. -/
def API_HOST_v2 : String := "email-breach-search.p.rapidapi.com"

/-- The request built by fetch_breach_data in src/EmailHacks.py: the url
f-string and the two x-rapidapi headers. -/
def fetchRequestV1 (apiKey email : String) : HttpRequest :=
  { url := "https://" ++ API_HOST_v1 ++ "/rapidapi/search-email/" ++ email
    headers := [("x-rapidapi-key", apiKey), ("x-rapidapi-host", API_HOST_v1)] }

/-- The request built by fetch_breach_data in src/unnamed/part_000. -/
def fetchRequestV2 (apiKey email : String) : HttpRequest :=
  { url := "https://" ++ API_HOST_v2 ++ "/rapidapi/search-email/" ++ email
    headers := [("x-rapidapi-key", apiKey), ("x-rapidapi-host", API_HOST_v2)] }

/-- Result of running a fetch_breach_data function: the value it returns, the
requests it issued and the messages it showed. -/
structure FetchOutcome where
  result : Option (List BreachRecord)
  requestsMade : List HttpRequest
  messages : List Message
deriving Repr, DecidableEq

/-- Error message of src/EmailHacks.py line 60, which interpolates the email. -/
def fetchErrMsgV1 (email e : String) : String :=
  "⚠️ Error fetching data for " ++ email ++ ": " ++ e

/-- Error message of src/unnamed/part_000 line 38, without the email. -/
def fetchErrMsgV2 (e : String) : String :=
  "⚠️ Error fetching data: " ++ e

/-- Models the text of the HTTPError raised by raise_for_status; the exact
wording of the library string is not load-bearing anywhere in the scripts. -/
def statusErrMsg (status : Nat) (url : String) : String :=
  toString status ++ " Error for url: " ++ url

/-- fetch_breach_data from src/EmailHacks.py lines 47-61: build the url and
headers, issue the GET, raise_for_status, return response.json(); on a
RequestException show st.error and return None. -/
def fetch_breach_data_v1 (apiKey email : String)
    (http : HttpRequest → HttpResult) : FetchOutcome :=
  let req := fetchRequestV1 apiKey email
  match http req with
  | .connError e =>
      { result := none
        requestsMade := [req]
        messages := [.error (fetchErrMsgV1 email e)] }
  | .response status body =>
      if raisesForStatus status then
        { result := none
          requestsMade := [req]
          messages := [.error (fetchErrMsgV1 email (statusErrMsg status req.url))] }
      else
        { result := some body, requestsMade := [req], messages := [] }

/-- fetch_breach_data from src/unnamed/part_000 lines 24-39: identical flow,
with the data binding and the email-free error message. -/
def fetch_breach_data_v2 (apiKey email : String)
    (http : HttpRequest → HttpResult) : FetchOutcome :=
  let req := fetchRequestV2 apiKey email
  match http req with
  | .connError e =>
      { result := none
        requestsMade := [req]
        messages := [.error (fetchErrMsgV2 e)] }
  | .response status body =>
      if raisesForStatus status then
        { result := none
          requestsMade := [req]
          messages := [.error (fetchErrMsgV2 (statusErrMsg status req.url))] }
      else
        { result := some body, requestsMade := [req], messages := [] }

/-- assign_risk from src/EmailHacks.py lines 75-80, applied to the rows field
of each record: strict comparisons against 1,000,000 and 10,000. -/
def assign_risk (rows : Int) : String :=
  if rows > 1000000 then "🔴 High"
  else if rows > 10000 then "🟡 Medium"
  else "🟢 Low"

/-- Modelled from the sidebar legend rendered by src/EmailHacks.py lines 27-30,
the in-app documentation of the risk score: Low for fewer than 10,000 records,
Medium for 10,000 - 1,000,000, High for more than 1,000,000. -/
def documentedRisk (rows : Int) : String :=
  if rows < 10000 then "🟢 Low"
  else if rows ≤ 1000000 then "🟡 Medium"
  else "🔴 High"

/-- Whether the first char list is a leading segment of the second. -/
def leadsChars : List Char → List Char → Bool
  | [], _ => true
  | _ :: _, [] => false
  | a :: as, b :: bs => a == b && leadsChars as bs

/-- Whether the needle occurs contiguously inside the haystack. -/
def containsSub (hay needle : List Char) : Bool :=
  match hay with
  | [] => needle.isEmpty
  | _ :: t => leadsChars needle hay || containsSub t needle

/-- Substring test on strings: models the Python in operator. -/
def strContains (s pat : String) : Bool :=
  containsSub s.data pat.data

/-- Models pandas Series.str.contains(query, case=False, na=False) on the name
column for the plain (non-metacharacter) queries the search box is meant for:
case-insensitive substring containment.  The na=False flag is moot because
every record carries a name. -/
def nameMatches (name query : String) : Bool :=
  containsSub (name.data.map Char.toLower) (query.data.map Char.toLower)

/-- Split a char list on the dash character. -/
def splitDash : List Char → List (List Char)
  | [] => [[]]
  | c :: t =>
    match splitDash t, decide (c = '-') with
    | r, true => [] :: r
    | [], false => [[c]]
    | h :: r, false => (c :: h) :: r

/-- Numeric value of a list of decimal digit characters. -/
def digitsToNat (l : List Char) : Nat :=
  l.foldl (fun n c => n * 10 + (c.toNat - 48)) 0

/-- Models pd.to_datetime(s, errors=coerce).dt.year on the ISO YYYY-MM-DD
strings the breach_date field carries; any other shape coerces to NaT and
yields no year. -/
def parseYear (s : String) : Option Nat :=
  match splitDash s.data with
  | [y, _, _] =>
      if y.length = 4 && y.all Char.isDigit then some (digitsToNat y) else none
  | _ => none

/-- Number of occurrences of x in a list. -/
def countEq {α : Type} [DecidableEq α] (x : α) : List α → Nat
  | [] => 0
  | a :: l => (if a = x then 1 else 0) + countEq x l

/-- The distinct values of a list (the index of a pandas value_counts). -/
def distinctList {α : Type} [DecidableEq α] : List α → List α
  | [] => []
  | a :: l => if a ∈ l then distinctList l else a :: distinctList l

/-- Models pandas value_counts as the list of distinct values paired with
their multiplicities (value_counts orders by frequency; no claim depends on
the order, only on which pairs appear). -/
def valueCounts {α : Type} [DecidableEq α] (l : List α) : List (α × Nat) :=
  (distinctList l).map (fun v => (v, countEq v l))

/-- Insert a (year, count) pair into a list sorted by year. -/
def insertByYear (x : Nat × Nat) : List (Nat × Nat) → List (Nat × Nat)
  | [] => [x]
  | y :: ys => if x.1 ≤ y.1 then x :: y :: ys else y :: insertByYear x ys

/-- Models the sort_index() applied to the year counts. -/
def sortByYear (l : List (Nat × Nat)) : List (Nat × Nat) :=
  l.foldr insertByYear []

/-- A chart drawn with st.pyplot: the bar chart of breach counts per year, or
the pie chart of record counts per risk level. -/
inductive Chart where
  | bar (yearCounts : List (Nat × Nat))
  | pie (riskCounts : List (String × Nat))
deriving Repr, DecidableEq

/-- A download offered with st.download_button: the Excel file of the
transformed record rows, or the JSON file of the raw records.  The Excel rows
carry each record with its risk_level column; the derived parsed-date and year
columns are recoverable from the record by parseYear. -/
inductive Download where
  | excelFile (fileName : String) (rowsData : List (BreachRecord × String))
  | jsonFile (fileName : String) (records : List BreachRecord)
deriving Repr, DecidableEq

/-- Message of the missing-API-key st.error in both scripts. -/
def apiKeyMissingMsg : String :=
  "⚠️ API key is missing! Please set the RAPIDAPI_KEY environment variable."

/-- Message of the st.info shown when the data guard is falsy. -/
def noBreachesMsg : String := "✅ No breaches found for this email."

/-- Message of the st.warning shown for an input without the at sign. -/
def invalidEmailMsg : String := "⚠️ Please enter a valid email address."

/-- Columns selected for st.dataframe in src/EmailHacks.py line 90. -/
def v1Cols : List String := ["name", "breach_date", "upload_date", "rows", "risk_level"]

/-- Columns selected for st.dataframe in src/unnamed/part_000 line 51. -/
def v2Cols : List String := ["id", "name", "breach_date", "upload_date", "rows"]

/-- The risk_level column assignment of src/EmailHacks.py line 82: each record
paired with assign_risk of its rows field. -/
def enrichV1 (data : List BreachRecord) : List (BreachRecord × String) :=
  data.map (fun r => (r, assign_risk r.rows))

/-- The search filter of src/EmailHacks.py lines 85-87: a truthy query keeps
the rows whose name contains it case-insensitively; an empty one filters
nothing. -/
def filterV1 (rowsData : List (BreachRecord × String)) (query : String) :
    List (BreachRecord × String) :=
  if query.isEmpty then rowsData
  else rowsData.filter (fun p => nameMatches p.1.name query)

/-- The record set st.dataframe displays in src/EmailHacks.py: enriched with
risk_level, then search-filtered. -/
def displayedV1 (data : List BreachRecord) (query : String) :
    List (BreachRecord × String) :=
  filterV1 (enrichV1 data) query

/-- The year values of the displayed records, as pandas builds them: coerce
each breach_date, keep the years of the parseable ones (value_counts drops the
NaN entries of unparseable dates). -/
def yearsOf (rowsData : List (BreachRecord × String)) : List Nat :=
  rowsData.filterMap (fun p => parseYear p.1.breach_date)

/-- Data of the bar chart: value_counts of the year column, sort_index-ed. -/
def yearCountsV1 (rowsData : List (BreachRecord × String)) : List (Nat × Nat) :=
  sortByYear (valueCounts (yearsOf rowsData))

/-- Data of the pie chart: value_counts of the risk_level column. -/
def riskCountsV1 (rowsData : List (BreachRecord × String)) : List (String × Nat) :=
  valueCounts (rowsData.map (fun p => p.2))

/-- Observable outcome of one run of src/EmailHacks.py. -/
structure RunOutputV1 where
  messages : List Message
  requests : List HttpRequest
  stopped : Bool
  table : Option (List String × List (BreachRecord × String))
  charts : List Chart
  downloads : List Download
deriving Repr, DecidableEq

/-- Python truthiness of os.getenv: falsy when unset or the empty string. -/
def truthyKey : Option String → Bool
  | none => false
  | some s => !s.isEmpty

/-- Python truthiness of the fetch result: falsy when None or an empty list. -/
def truthyData : Option (List BreachRecord) → Bool
  | none => false
  | some l => !l.isEmpty

/-- One run of src/EmailHacks.py as a function of the environment, the two
text inputs and the HTTP oracle.  Mirrors the script top to bottom: the
API-key guard with st.stop, the email guard, the fetch, the data guard, then
table, charts and the Excel download on the truthy path. -/
def runV1 (env : String → Option String) (email searchQuery : String)
    (http : HttpRequest → HttpResult) : RunOutputV1 :=
  let apiKey? := env "RapidAPI"
  if truthyKey apiKey? = false then
    { messages := [.error apiKeyMissingMsg], requests := [], stopped := true
      table := none, charts := [], downloads := [] }
  else
    let apiKey := apiKey?.getD ""
    if !email.isEmpty && strContains email "@" then
      let f := fetch_breach_data_v1 apiKey email http
      if truthyData f.result then
        let shown := displayedV1 (f.result.getD []) searchQuery
        { messages := f.messages, requests := f.requestsMade, stopped := false
          table := some (v1Cols, shown)
          charts := [Chart.bar (yearCountsV1 shown), Chart.pie (riskCountsV1 shown)]
          downloads := [Download.excelFile "breaches.xlsx" shown] }
      else
        { messages := f.messages ++ [.info noBreachesMsg]
          requests := f.requestsMade, stopped := false
          table := none, charts := [], downloads := [] }
    else
      { messages := [.warning invalidEmailMsg], requests := [], stopped := false
        table := none, charts := [], downloads := [] }

/-- Observable outcome of one run of src/unnamed/part_000 (no charts there). -/
structure RunOutputV2 where
  messages : List Message
  requests : List HttpRequest
  stopped : Bool
  table : Option (List String × List BreachRecord)
  downloads : List Download
deriving Repr, DecidableEq

/-- One run of src/unnamed/part_000: the API-key guard with st.stop, then the
nested email guards (an empty input renders nothing at all), the fetch, the
data guard, the table and the JSON download on the truthy path. -/
def runV2 (env : String → Option String) (email : String)
    (http : HttpRequest → HttpResult) : RunOutputV2 :=
  let apiKey? := env "RapidAPI"
  if truthyKey apiKey? = false then
    { messages := [.error apiKeyMissingMsg], requests := [], stopped := true
      table := none, downloads := [] }
  else
    let apiKey := apiKey?.getD ""
    if email.isEmpty then
      { messages := [], requests := [], stopped := false
        table := none, downloads := [] }
    else if strContains email "@" then
      let f := fetch_breach_data_v2 apiKey email http
      if truthyData f.result then
        let data := f.result.getD []
        { messages := f.messages, requests := f.requestsMade, stopped := false
          table := some (v2Cols, data)
          downloads := [Download.jsonFile "breaches.json" data] }
      else
        { messages := f.messages ++ [.info noBreachesMsg]
          requests := f.requestsMade, stopped := false
          table := none, downloads := [] }
    else
      { messages := [.warning invalidEmailMsg], requests := [], stopped := false
        table := none, downloads := [] }

/-- A concrete environment carrying the RapidAPI variable, for witnesses. -/
def envGood : String → Option String := fun s =>
  if s = "RapidAPI" then some "key123" else none

/-- A concrete environment without the RapidAPI variable. -/
def envUnset : String → Option String := fun _ => none

/-- A large concrete breach record (rows above one million). -/
def recAdobe : BreachRecord :=
  { id := "42", name := "Adobe", breach_date := "2013-10-04"
    upload_date := "2016-01-01", rows := 152000000
    summary := none, icon := none }

/-- A small concrete breach record (rows exactly ten thousand). -/
def recSmall : BreachRecord :=
  { id := "7", name := "TinyForum", breach_date := "2013-06-01"
    upload_date := "2014-02-02", rows := 10000
    summary := none, icon := none }

/-- Oracle answering every request with status 200 and one record. -/
def httpOkOne : HttpRequest → HttpResult := fun _ => .response 200 [recAdobe]

/-- Oracle answering every request with status 200 and two records. -/
def httpOkTwo : HttpRequest → HttpResult := fun _ =>
  .response 200 [recAdobe, recSmall]

/-- Oracle answering every request with status 200 and an empty list. -/
def httpEmpty : HttpRequest → HttpResult := fun _ => .response 200 []

/-- Oracle on which every request fails at the connection level. -/
def httpDown : HttpRequest → HttpResult := fun _ =>
  .connError "Connection refused"

/-! Reduction lemmas: how each script run evaluates under explicit hypotheses
on the environment, the inputs and the HTTP oracle. -/

theorem fetch_v1_ok {k e : String} {http : HttpRequest → HttpResult}
    {s : Nat} {b : List BreachRecord}
    (hr : http (fetchRequestV1 k e) = .response s b)
    (hs : raisesForStatus s = false) :
    fetch_breach_data_v1 k e http
      = ⟨some b, [fetchRequestV1 k e], []⟩ := by
  simp [fetch_breach_data_v1, hr, hs]

theorem fetch_v1_connError {k e m : String} {http : HttpRequest → HttpResult}
    (hr : http (fetchRequestV1 k e) = .connError m) :
    fetch_breach_data_v1 k e http
      = ⟨none, [fetchRequestV1 k e], [.error (fetchErrMsgV1 e m)]⟩ := by
  simp [fetch_breach_data_v1, hr]

theorem fetch_v1_raise {k e : String} {http : HttpRequest → HttpResult}
    {s : Nat} {b : List BreachRecord}
    (hr : http (fetchRequestV1 k e) = .response s b)
    (hs : raisesForStatus s = true) :
    fetch_breach_data_v1 k e http
      = ⟨none, [fetchRequestV1 k e],
          [.error (fetchErrMsgV1 e (statusErrMsg s (fetchRequestV1 k e).url))]⟩ := by
  simp [fetch_breach_data_v1, hr, hs]

theorem fetch_v2_ok {k e : String} {http : HttpRequest → HttpResult}
    {s : Nat} {b : List BreachRecord}
    (hr : http (fetchRequestV2 k e) = .response s b)
    (hs : raisesForStatus s = false) :
    fetch_breach_data_v2 k e http
      = ⟨some b, [fetchRequestV2 k e], []⟩ := by
  simp [fetch_breach_data_v2, hr, hs]

theorem fetch_v2_connError {k e m : String} {http : HttpRequest → HttpResult}
    (hr : http (fetchRequestV2 k e) = .connError m) :
    fetch_breach_data_v2 k e http
      = ⟨none, [fetchRequestV2 k e], [.error (fetchErrMsgV2 m)]⟩ := by
  simp [fetch_breach_data_v2, hr]

theorem runV1_keyMissing {env : String → Option String} {email q : String}
    {http : HttpRequest → HttpResult}
    (h : truthyKey (env "RapidAPI") = false) :
    runV1 env email q http
      = ⟨[.error apiKeyMissingMsg], [], true, none, [], []⟩ := by
  simp [runV1, h]

theorem runV1_invalidEmail {env : String → Option String} {k email q : String}
    {http : HttpRequest → HttpResult}
    (hk : env "RapidAPI" = some k) (hk2 : k.isEmpty = false)
    (he : (!email.isEmpty && strContains email "@") = false) :
    runV1 env email q http
      = ⟨[.warning invalidEmailMsg], [], false, none, [], []⟩ := by
  simp [runV1, hk, truthyKey, hk2, he]

theorem runV1_success {env : String → Option String} {k email q : String}
    {http : HttpRequest → HttpResult} {data : List BreachRecord}
    (hk : env "RapidAPI" = some k) (hk2 : k.isEmpty = false)
    (he : email.isEmpty = false) (ha : strContains email "@" = true)
    (hr : http (fetchRequestV1 k email) = .response 200 data)
    (hd : data.isEmpty = false) :
    runV1 env email q http
      = ⟨[], [fetchRequestV1 k email], false
         , some (v1Cols, displayedV1 data q)
         , [Chart.bar (yearCountsV1 (displayedV1 data q)),
            Chart.pie (riskCountsV1 (displayedV1 data q))]
         , [Download.excelFile "breaches.xlsx" (displayedV1 data q)]⟩ := by
  have hf := fetch_v1_ok hr (by decide)
  simp [runV1, hk, truthyKey, hk2, he, ha, hf, truthyData, hd]

theorem runV1_noData {env : String → Option String} {k email q : String}
    {http : HttpRequest → HttpResult}
    (hk : env "RapidAPI" = some k) (hk2 : k.isEmpty = false)
    (he : email.isEmpty = false) (ha : strContains email "@" = true)
    (ht : truthyData (fetch_breach_data_v1 k email http).result = false) :
    runV1 env email q http
      = ⟨(fetch_breach_data_v1 k email http).messages ++ [.info noBreachesMsg]
         , (fetch_breach_data_v1 k email http).requestsMade
         , false, none, [], []⟩ := by
  simp [runV1, hk, truthyKey, hk2, he, ha, ht]

theorem runV2_keyMissing {env : String → Option String} {email : String}
    {http : HttpRequest → HttpResult}
    (h : truthyKey (env "RapidAPI") = false) :
    runV2 env email http
      = ⟨[.error apiKeyMissingMsg], [], true, none, []⟩ := by
  simp [runV2, h]

theorem runV2_invalidEmail {env : String → Option String} {k email : String}
    {http : HttpRequest → HttpResult}
    (hk : env "RapidAPI" = some k) (hk2 : k.isEmpty = false)
    (he : email.isEmpty = false) (ha : strContains email "@" = false) :
    runV2 env email http
      = ⟨[.warning invalidEmailMsg], [], false, none, []⟩ := by
  simp [runV2, hk, truthyKey, hk2, he, ha]

theorem runV2_success {env : String → Option String} {k email : String}
    {http : HttpRequest → HttpResult} {data : List BreachRecord}
    (hk : env "RapidAPI" = some k) (hk2 : k.isEmpty = false)
    (he : email.isEmpty = false) (ha : strContains email "@" = true)
    (hr : http (fetchRequestV2 k email) = .response 200 data)
    (hd : data.isEmpty = false) :
    runV2 env email http
      = ⟨[], [fetchRequestV2 k email], false
         , some (v2Cols, data)
         , [Download.jsonFile "breaches.json" data]⟩ := by
  have hf := fetch_v2_ok hr (by decide)
  simp [runV2, hk, truthyKey, hk2, he, ha, hf, truthyData, hd]

theorem countEq_pos_iff_mem {α : Type} [DecidableEq α] (x : α) (l : List α) :
    0 < countEq x l ↔ x ∈ l := by
  induction l with
  | nil => simp [countEq]
  | cons a l ih =>
    by_cases h : a = x
    · subst h; simp [countEq]
    · have h2 : ¬ x = a := fun hx => h hx.symm
      simp [countEq, h, h2, ih]

theorem mem_distinctList {α : Type} [DecidableEq α] (x : α) (l : List α) :
    x ∈ distinctList l ↔ x ∈ l := by
  induction l with
  | nil => simp [distinctList]
  | cons a l ih =>
    by_cases h : a ∈ l
    · simp only [distinctList, if_pos h, ih, List.mem_cons]
      constructor
      · exact Or.inr
      · rintro (rfl | hx)
        · exact h
        · exact hx
    · simp [distinctList, if_neg h, ih]

theorem mem_valueCounts {α : Type} [DecidableEq α] (l : List α) (v : α) (n : Nat) :
    (v, n) ∈ valueCounts l ↔ v ∈ l ∧ n = countEq v l := by
  simp only [valueCounts, List.mem_map, Prod.mk.injEq]
  constructor
  · rintro ⟨u, hu, rfl, rfl⟩
    exact ⟨(mem_distinctList u l).mp hu, rfl⟩
  · rintro ⟨hv, rfl⟩
    exact ⟨v, (mem_distinctList v l).mpr hv, rfl, rfl⟩

theorem countEq_filterMap {α β : Type} [DecidableEq β] (f : α → Option β)
    (y : β) (l : List α) :
    countEq y (l.filterMap f)
      = (l.filter (fun a => decide (f a = some y))).length := by
  induction l with
  | nil => simp [countEq]
  | cons a l ih =>
    cases hfa : f a with
    | none => simp [List.filterMap_cons, hfa, List.filter_cons, ih]
    | some b =>
      by_cases hb : b = y
      · subst hb
        simp [List.filterMap_cons, hfa, List.filter_cons, countEq, ih]
        omega
      · have : ¬ (some b = some y) := by simpa using hb
        simp [List.filterMap_cons, hfa, List.filter_cons, countEq, hb, this, ih]

theorem countEq_map {α β : Type} [DecidableEq β] (f : α → β) (v : β)
    (l : List α) :
    countEq v (l.map f) = (l.filter (fun a => decide (f a = v))).length := by
  induction l with
  | nil => simp [countEq]
  | cons a l ih =>
    by_cases h : f a = v
    · simp [List.filter_cons, countEq, h, ih]
      omega
    · simp [List.filter_cons, countEq, h, ih]

theorem mem_insertByYear (x a : Nat × Nat) (l : List (Nat × Nat)) :
    a ∈ insertByYear x l ↔ a = x ∨ a ∈ l := by
  induction l with
  | nil => simp [insertByYear]
  | cons y ys ih =>
    by_cases h : x.1 ≤ y.1
    · simp [insertByYear, h]
    · simp only [insertByYear, if_neg h, List.mem_cons, ih]
      tauto

theorem mem_sortByYear (a : Nat × Nat) (l : List (Nat × Nat)) :
    a ∈ sortByYear l ↔ a ∈ l := by
  induction l with
  | nil => simp [sortByYear]
  | cons x xs ih =>
    simp only [sortByYear, List.foldr_cons] at *
    rw [mem_insertByYear, ih, List.mem_cons]

theorem runV2_noData {env : String → Option String} {k email : String}
    {http : HttpRequest → HttpResult}
    (hk : env "RapidAPI" = some k) (hk2 : k.isEmpty = false)
    (he : email.isEmpty = false) (ha : strContains email "@" = true)
    (ht : truthyData (fetch_breach_data_v2 k email http).result = false) :
    runV2 env email http
      = ⟨(fetch_breach_data_v2 k email http).messages ++ [.info noBreachesMsg]
         , (fetch_breach_data_v2 k email http).requestsMade
         , false, none, []⟩ := by
  simp [runV2, hk, truthyKey, hk2, he, ha, ht]

theorem fetch_v1_requests (k e : String) (http : HttpRequest → HttpResult) :
    (fetch_breach_data_v1 k e http).requestsMade = [fetchRequestV1 k e] := by
  cases hr : http (fetchRequestV1 k e) with
  | connError m => rw [fetch_v1_connError hr]
  | response s b =>
      cases hs : raisesForStatus s with
      | true => rw [fetch_v1_raise hr hs]
      | false => rw [fetch_v1_ok hr hs]

theorem fetch_v2_requests (k e : String) (http : HttpRequest → HttpResult) :
    (fetch_breach_data_v2 k e http).requestsMade = [fetchRequestV2 k e] := by
  cases hr : http (fetchRequestV2 k e) with
  | connError m => rw [fetch_v2_connError hr]
  | response s b =>
      cases hs : raisesForStatus s with
      | true => simp [fetch_breach_data_v2, hr, hs]
      | false => rw [fetch_v2_ok hr hs]

theorem runV1_requests {env : String → Option String} {k email q : String}
    {http : HttpRequest → HttpResult}
    (hk : env "RapidAPI" = some k) (hk2 : k.isEmpty = false)
    (he : email.isEmpty = false) (ha : strContains email "@" = true) :
    (runV1 env email q http).requests = [fetchRequestV1 k email] := by
  by_cases ht : truthyData (fetch_breach_data_v1 k email http).result
  · simp [runV1, hk, truthyKey, hk2, he, ha, ht, fetch_v1_requests]
  · simp [runV1, hk, truthyKey, hk2, he, ha, ht, fetch_v1_requests]

theorem runV2_requests {env : String → Option String} {k email : String}
    {http : HttpRequest → HttpResult}
    (hk : env "RapidAPI" = some k) (hk2 : k.isEmpty = false)
    (he : email.isEmpty = false) (ha : strContains email "@" = true) :
    (runV2 env email http).requests = [fetchRequestV2 k email] := by
  by_cases ht : truthyData (fetch_breach_data_v2 k email http).result
  · simp [runV2, hk, truthyKey, hk2, he, ha, ht, fetch_v2_requests]
  · simp [runV2, hk, truthyKey, hk2, he, ha, ht, fetch_v2_requests]

/-- Claim C1 (code_bug record): at exactly 10,000 exposed rows, assign_risk in
src/EmailHacks.py returns the Low label, while the sidebar legend rendered by
the same file documents 10,000 - 1,000,000 records as Medium.  The strict
comparison rows > 10_000 contradicts the in-app documentation at the boundary;
everywhere else the two agree. -/
theorem C1_risk_threshold_bug :
    assign_risk 10000 = "🟢 Low" ∧ documentedRisk 10000 = "🟡 Medium"
      ∧ assign_risk 10000 ≠ documentedRisk 10000 := by
  refine ⟨rfl, rfl, ?_⟩
  decide

/-- Claim C2: when the HTTP GET raises a RequestException (connection failure,
or a 4xx/5xx status via raise_for_status), both fetch_breach_data functions
show an error message and return None; in every other case they return the
parsed JSON body and show nothing. -/
theorem C2_fetch_error_handling (k e : String) (http : HttpRequest → HttpResult) :
    (requestException (http (fetchRequestV1 k e)) = true →
      (fetch_breach_data_v1 k e http).result = none
        ∧ ∃ s, Message.error s ∈ (fetch_breach_data_v1 k e http).messages)
    ∧ (requestException (http (fetchRequestV1 k e)) = false →
      (fetch_breach_data_v1 k e http).result = jsonOf (http (fetchRequestV1 k e))
        ∧ (fetch_breach_data_v1 k e http).messages = [])
    ∧ (requestException (http (fetchRequestV2 k e)) = true →
      (fetch_breach_data_v2 k e http).result = none
        ∧ ∃ s, Message.error s ∈ (fetch_breach_data_v2 k e http).messages)
    ∧ (requestException (http (fetchRequestV2 k e)) = false →
      (fetch_breach_data_v2 k e http).result = jsonOf (http (fetchRequestV2 k e))
        ∧ (fetch_breach_data_v2 k e http).messages = []) := by
  refine ⟨?_, ?_, ?_, ?_⟩
  · intro hx
    cases hr : http (fetchRequestV1 k e) with
    | connError m =>
        rw [fetch_v1_connError hr]
        exact ⟨rfl, fetchErrMsgV1 e m, by simp⟩
    | response s b =>
        have hs : raisesForStatus s = true := by
          simpa [requestException, hr] using hx
        rw [fetch_v1_raise hr hs]
        exact ⟨rfl, fetchErrMsgV1 e (statusErrMsg s (fetchRequestV1 k e).url), by simp⟩
  · intro hx
    cases hr : http (fetchRequestV1 k e) with
    | connError m => simp [requestException, hr] at hx
    | response s b =>
        have hs : raisesForStatus s = false := by
          simpa [requestException, hr] using hx
        rw [fetch_v1_ok hr hs]
        exact ⟨rfl, rfl⟩
  · intro hx
    cases hr : http (fetchRequestV2 k e) with
    | connError m =>
        rw [fetch_v2_connError hr]
        exact ⟨rfl, fetchErrMsgV2 m, by simp⟩
    | response s b =>
        have hs : raisesForStatus s = true := by
          simpa [requestException, hr] using hx
        have : fetch_breach_data_v2 k e http
            = ⟨none, [fetchRequestV2 k e],
                [.error (fetchErrMsgV2 (statusErrMsg s (fetchRequestV2 k e).url))]⟩ := by
          simp [fetch_breach_data_v2, hr, hs]
        rw [this]
        exact ⟨rfl, fetchErrMsgV2 (statusErrMsg s (fetchRequestV2 k e).url), by simp⟩
  · intro hx
    cases hr : http (fetchRequestV2 k e) with
    | connError m => simp [requestException, hr] at hx
    | response s b =>
        have hs : raisesForStatus s = false := by
          simpa [requestException, hr] using hx
        rw [fetch_v2_ok hr hs]
        exact ⟨rfl, rfl⟩

/-- Witness for C2 at concrete inputs: a connection failure yields None plus
an error message, and a 200 response yields the parsed body and no message. -/
theorem C2_fetch_error_handling_witness :
    ((fetch_breach_data_v1 "key123" "a@b.com" httpDown).result = none
      ∧ ∃ s, Message.error s ∈ (fetch_breach_data_v1 "key123" "a@b.com" httpDown).messages)
    ∧ ((fetch_breach_data_v1 "key123" "a@b.com" httpOkOne).result
          = jsonOf (httpOkOne (fetchRequestV1 "key123" "a@b.com"))
      ∧ (fetch_breach_data_v1 "key123" "a@b.com" httpOkOne).messages = []) :=
  ⟨(C2_fetch_error_handling "key123" "a@b.com" httpDown).1 (by decide),
   (C2_fetch_error_handling "key123" "a@b.com" httpOkOne).2.1 (by decide)⟩

theorem fetchRequestV1_explicit (k e : String) :
    fetchRequestV1 k e
      = ⟨"https://email-breach-search.p.rapidapi.com/rapidapi/search-email/" ++ e,
         [("x-rapidapi-key", k),
          ("x-rapidapi-host", "email-breach-search.p.rapidapi.com")]⟩ := by
  have h1 : ("https://" ++ API_HOST_v1 ++ "/rapidapi/search-email/")
      = "https://email-breach-search.p.rapidapi.com/rapidapi/search-email/" := by
    decide
  simp only [fetchRequestV1, HttpRequest.mk.injEq]
  constructor
  · rw [← h1]
  · rfl

/-- Claim C3: for a searched email (non-empty, containing the at sign) under a
present API key, each script issues exactly one request, to the fixed
email-breach-search host at the search-email path for that email, with the
x-rapidapi headers carrying the key read from the RapidAPI environment
variable; the request list of the whole run is that singleton, whatever the
oracle answers. -/
theorem C3_single_fixed_request (env : String → Option String)
    (k email q : String) (http : HttpRequest → HttpResult)
    (hk : env "RapidAPI" = some k) (hk2 : k.isEmpty = false)
    (he : email.isEmpty = false) (ha : strContains email "@" = true) :
    (runV1 env email q http).requests = [fetchRequestV1 k email]
    ∧ (runV2 env email http).requests = [fetchRequestV2 k email]
    ∧ fetchRequestV1 k email
        = ⟨"https://email-breach-search.p.rapidapi.com/rapidapi/search-email/" ++ email,
           [("x-rapidapi-key", k),
            ("x-rapidapi-host", "email-breach-search.p.rapidapi.com")]⟩
    ∧ fetchRequestV2 k email = fetchRequestV1 k email := by
  exact ⟨runV1_requests hk hk2 he ha, runV2_requests hk hk2 he ha,
         fetchRequestV1_explicit k email, rfl⟩

/-- Witness for C3 at concrete inputs: with the key present and a valid email,
the run issues the one expected request. -/
theorem C3_single_fixed_request_witness :
    (runV1 envGood "a@b.com" "" httpOkOne).requests
      = [fetchRequestV1 "key123" "a@b.com"]
    ∧ (runV2 envGood "a@b.com" httpOkOne).requests
      = [fetchRequestV2 "key123" "a@b.com"]
    ∧ fetchRequestV1 "key123" "a@b.com"
        = ⟨"https://email-breach-search.p.rapidapi.com/rapidapi/search-email/"
             ++ "a@b.com",
           [("x-rapidapi-key", "key123"),
            ("x-rapidapi-host", "email-breach-search.p.rapidapi.com")]⟩
    ∧ fetchRequestV2 "key123" "a@b.com" = fetchRequestV1 "key123" "a@b.com" :=
  C3_single_fixed_request envGood "key123" "a@b.com" "" httpOkOne
    (by decide) (by decide) (by decide) (by decide)

/-- Claim C4: on a successful lookup with a non-empty result, each script
offers exactly one download: the charting version an Excel file of the
transformed (risk-levelled) and possibly search-filtered record set, the
other version a JSON file of the raw API records. -/
theorem C4_downloads (env : String → Option String) (k email q : String)
    (data : List BreachRecord) (http : HttpRequest → HttpResult)
    (hk : env "RapidAPI" = some k) (hk2 : k.isEmpty = false)
    (he : email.isEmpty = false) (ha : strContains email "@" = true)
    (hr1 : http (fetchRequestV1 k email) = .response 200 data)
    (hr2 : http (fetchRequestV2 k email) = .response 200 data)
    (hd : data.isEmpty = false) :
    (runV1 env email q http).downloads
      = [Download.excelFile "breaches.xlsx" (displayedV1 data q)]
    ∧ (runV2 env email http).downloads
      = [Download.jsonFile "breaches.json" data] := by
  constructor
  · rw [runV1_success hk hk2 he ha hr1 hd]
  · rw [runV2_success hk hk2 he ha hr2 hd]

/-- Witness for C4: the concrete two-record lookup offers the Excel download
of the enriched records and the JSON download of the raw list. -/
theorem C4_downloads_witness :
    (runV1 envGood "a@b.com" "" httpOkTwo).downloads
      = [Download.excelFile "breaches.xlsx" (displayedV1 [recAdobe, recSmall] "")]
    ∧ (runV2 envGood "a@b.com" httpOkTwo).downloads
      = [Download.jsonFile "breaches.json" [recAdobe, recSmall]] :=
  C4_downloads envGood "key123" "a@b.com" "" [recAdobe, recSmall] httpOkTwo
    (by decide) (by decide) (by decide) (by decide) (by decide) (by decide)
    (by decide)

/-- Claim C5: on the truthy path of the charting version, exactly two charts
are drawn: a bar chart whose entry for each year counts the displayed records
whose parsed breach_date falls in that year, and a pie chart whose entry for
each occurring risk level counts the displayed records carrying it. -/
theorem C5_two_charts (env : String → Option String) (k email q : String)
    (data : List BreachRecord) (http : HttpRequest → HttpResult)
    (hk : env "RapidAPI" = some k) (hk2 : k.isEmpty = false)
    (he : email.isEmpty = false) (ha : strContains email "@" = true)
    (hr : http (fetchRequestV1 k email) = .response 200 data)
    (hd : data.isEmpty = false) :
    (runV1 env email q http).charts
      = [Chart.bar (yearCountsV1 (displayedV1 data q)),
         Chart.pie (riskCountsV1 (displayedV1 data q))]
    ∧ (∀ y n, (y, n) ∈ yearCountsV1 (displayedV1 data q) ↔
        y ∈ yearsOf (displayedV1 data q)
          ∧ n = ((displayedV1 data q).filter
                  (fun p => decide (parseYear p.1.breach_date = some y))).length)
    ∧ (∀ v n, (v, n) ∈ riskCountsV1 (displayedV1 data q) ↔
        v ∈ (displayedV1 data q).map (fun p => p.2)
          ∧ n = ((displayedV1 data q).filter (fun p => decide (p.2 = v))).length) := by
  refine ⟨?_, ?_, ?_⟩
  · rw [runV1_success hk hk2 he ha hr hd]
  · intro y n
    rw [yearCountsV1, mem_sortByYear, mem_valueCounts]
    rw [show yearsOf (displayedV1 data q)
          = (displayedV1 data q).filterMap (fun p => parseYear p.1.breach_date)
        from rfl]
    rw [countEq_filterMap]
  · intro v n
    rw [riskCountsV1, mem_valueCounts, countEq_map]

/-- Witness for C5: the concrete two-record lookup draws the two charts. -/
theorem C5_two_charts_witness :
    (runV1 envGood "a@b.com" "" httpOkTwo).charts
      = [Chart.bar (yearCountsV1 (displayedV1 [recAdobe, recSmall] "")),
         Chart.pie (riskCountsV1 (displayedV1 [recAdobe, recSmall] ""))] :=
  (C5_two_charts envGood "key123" "a@b.com" "" [recAdobe, recSmall] httpOkTwo
    (by decide) (by decide) (by decide) (by decide) (by decide) (by decide)).1

theorem mem_enrichV1 (data : List BreachRecord) (p : BreachRecord × String) :
    p ∈ enrichV1 data ↔ p.1 ∈ data ∧ p.2 = assign_risk p.1.rows := by
  simp only [enrichV1, List.mem_map]
  constructor
  · rintro ⟨r, hr, rfl⟩
    exact ⟨hr, rfl⟩
  · rintro ⟨h1, h2⟩
    exact ⟨p.1, h1, by rw [← h2]⟩

theorem mem_displayedV1 (data : List BreachRecord) (q : String)
    (p : BreachRecord × String) :
    p ∈ displayedV1 data q ↔
      (p.1 ∈ data ∧ p.2 = assign_risk p.1.rows)
        ∧ (q.isEmpty = true ∨ nameMatches p.1.name q = true) := by
  by_cases hq : q.isEmpty
  · simp [displayedV1, filterV1, hq, mem_enrichV1]
  · simp [displayedV1, filterV1, hq, List.mem_filter, mem_enrichV1]

/-- Claim C6 counterexample: a successful lookup of a non-empty result (the
single record recAdobe) during which the search box holds the letter x renders
a table with no rows at all in src/EmailHacks.py, because the filter of line
87 runs before the st.dataframe of line 90; the returned record is not a row
of the displayed table, refuting the claim as stated. -/
theorem C6_counterexample :
    jsonOf (httpOkOne (fetchRequestV1 "key123" "a@b.com")) = some [recAdobe]
    ∧ (runV1 envGood "a@b.com" "x" httpOkOne).table = some (v1Cols, [])
    ∧ [recAdobe] ≠ [] := by
  refine ⟨by decide, by decide, by decide⟩

/-- Claim C6 as amended: on a successful lookup with a non-empty result, the
charting version displays the columns name, breach_date, upload_date, rows,
risk_level over exactly the records whose name matches the active search
filter (every returned record when the box is empty), each paired with its
derived risk level; the other version displays the columns id, name,
breach_date, upload_date, rows over every returned record. -/
theorem C6_table_rows (env : String → Option String) (k email q : String)
    (data : List BreachRecord) (http : HttpRequest → HttpResult)
    (hk : env "RapidAPI" = some k) (hk2 : k.isEmpty = false)
    (he : email.isEmpty = false) (ha : strContains email "@" = true)
    (hr1 : http (fetchRequestV1 k email) = .response 200 data)
    (hr2 : http (fetchRequestV2 k email) = .response 200 data)
    (hd : data.isEmpty = false) :
    (runV1 env email q http).table = some (v1Cols, displayedV1 data q)
    ∧ (∀ p : BreachRecord × String, p ∈ displayedV1 data q ↔
        (p.1 ∈ data ∧ p.2 = assign_risk p.1.rows)
          ∧ (q.isEmpty = true ∨ nameMatches p.1.name q = true))
    ∧ (runV2 env email http).table = some (v2Cols, data) := by
  refine ⟨?_, mem_displayedV1 data q, ?_⟩
  · rw [runV1_success hk hk2 he ha hr1 hd]
  · rw [runV2_success hk hk2 he ha hr2 hd]

/-- Witness for the amended C6 at the concrete two-record lookup with an empty
search box: both versions display all returned records under their column
lists. -/
theorem C6_table_rows_witness :
    (runV1 envGood "a@b.com" "" httpOkTwo).table
      = some (v1Cols, displayedV1 [recAdobe, recSmall] "")
    ∧ (runV2 envGood "a@b.com" httpOkTwo).table
      = some (v2Cols, [recAdobe, recSmall]) :=
  ⟨(C6_table_rows envGood "key123" "a@b.com" "" [recAdobe, recSmall] httpOkTwo
      (by decide) (by decide) (by decide) (by decide) (by decide) (by decide)
      (by decide)).1,
   (C6_table_rows envGood "key123" "a@b.com" "" [recAdobe, recSmall] httpOkTwo
      (by decide) (by decide) (by decide) (by decide) (by decide) (by decide)
      (by decide)).2.2⟩

/-- Claim C7: the two fetch_breach_data functions are equivalent up to message
wording: for every key, email and oracle they build the same request (same URL
and headers), issue the same request list, and return the same value — the
parsed JSON on success and None on a request error. -/
theorem C7_fetch_refinement (k e : String) (http : HttpRequest → HttpResult) :
    fetchRequestV1 k e = fetchRequestV2 k e
    ∧ (fetch_breach_data_v1 k e http).requestsMade
        = (fetch_breach_data_v2 k e http).requestsMade
    ∧ (fetch_breach_data_v1 k e http).result
        = (fetch_breach_data_v2 k e http).result := by
  have hreq : fetchRequestV1 k e = fetchRequestV2 k e := rfl
  refine ⟨hreq, ?_, ?_⟩
  · rw [fetch_v1_requests, fetch_v2_requests, hreq]
  · cases hr : http (fetchRequestV1 k e) with
    | connError m =>
        have hr2 : http (fetchRequestV2 k e) = .connError m := by rw [← hreq, hr]
        rw [fetch_v1_connError hr, fetch_v2_connError hr2]
    | response s b =>
        have hr2 : http (fetchRequestV2 k e) = .response s b := by rw [← hreq, hr]
        cases hs : raisesForStatus s with
        | true =>
            rw [fetch_v1_raise hr hs]
            simp [fetch_breach_data_v2, hr2, hs]
        | false =>
            rw [fetch_v1_ok hr hs, fetch_v2_ok hr2 hs]

/-- Claim C8: with the RapidAPI environment variable unset or empty, each
script shows the missing-key error — whose wording names RAPIDAPI_KEY, a
variable distinct from the RapidAPI one the scripts actually read — stops via
st.stop, and issues no HTTP request at all. -/
theorem C8_missing_key_stops (env : String → Option String) (e q : String)
    (http : HttpRequest → HttpResult)
    (h : env "RapidAPI" = none ∨ env "RapidAPI" = some "") :
    runV1 env e q http = ⟨[.error apiKeyMissingMsg], [], true, none, [], []⟩
    ∧ runV2 env e http = ⟨[.error apiKeyMissingMsg], [], true, none, []⟩
    ∧ strContains apiKeyMissingMsg "RAPIDAPI_KEY" = true
    ∧ strContains apiKeyMissingMsg "RapidAPI" = false := by
  have hk : truthyKey (env "RapidAPI") = false := by
    rcases h with h | h <;> simp [truthyKey, h, String.isEmpty]
  exact ⟨runV1_keyMissing hk, runV2_keyMissing hk, by decide, by decide⟩

/-- Witness for C8: under the concrete empty environment both runs stop with
the missing-key error and an empty request list. -/
theorem C8_missing_key_stops_witness :
    runV1 envUnset "a@b.com" "" httpOkOne
      = ⟨[.error apiKeyMissingMsg], [], true, none, [], []⟩
    ∧ runV2 envUnset "a@b.com" httpOkOne
      = ⟨[.error apiKeyMissingMsg], [], true, none, []⟩ :=
  ⟨(C8_missing_key_stops envUnset "a@b.com" "" httpOkOne (Or.inl rfl)).1,
   (C8_missing_key_stops envUnset "a@b.com" "" httpOkOne (Or.inl rfl)).2.1⟩

/-- Claim C9: an HTTP failure and an empty breach list are indistinguishable
downstream of the data guard.  With a connection error the fetch returns None
and the run shows the error message followed by the no-breaches info; with a
200 response carrying an empty list the run shows the no-breaches info alone;
in both cases no table and no download are produced, in both versions. -/
theorem C9_error_empty_indistinguishable (env : String → Option String)
    (k e q m : String) (http1 http2 : HttpRequest → HttpResult)
    (hk : env "RapidAPI" = some k) (hk2 : k.isEmpty = false)
    (he : e.isEmpty = false) (ha : strContains e "@" = true)
    (h1 : http1 (fetchRequestV1 k e) = .connError m)
    (h2 : http2 (fetchRequestV1 k e) = .response 200 []) :
    (runV1 env e q http1).messages
      = [.error (fetchErrMsgV1 e m), .info noBreachesMsg]
    ∧ (runV1 env e q http2).messages = [.info noBreachesMsg]
    ∧ (runV1 env e q http1).table = none ∧ (runV1 env e q http2).table = none
    ∧ (runV1 env e q http1).downloads = [] ∧ (runV1 env e q http2).downloads = []
    ∧ (runV2 env e http1).messages
      = [.error (fetchErrMsgV2 m), .info noBreachesMsg]
    ∧ (runV2 env e http2).messages = [.info noBreachesMsg]
    ∧ (runV2 env e http1).table = none ∧ (runV2 env e http2).table = none
    ∧ (runV2 env e http1).downloads = [] ∧ (runV2 env e http2).downloads = [] := by
  have h1v2 : http1 (fetchRequestV2 k e) = .connError m := h1
  have h2v2 : http2 (fetchRequestV2 k e) = .response 200 [] := h2
  have hf1 := fetch_v1_connError h1
  have hf2 := fetch_v1_ok h2 (by decide)
  have hf1v2 := fetch_v2_connError h1v2
  have hf2v2 := fetch_v2_ok h2v2 (by decide)
  have ht1 : truthyData (fetch_breach_data_v1 k e http1).result = false := by
    rw [hf1]; rfl
  have ht2 : truthyData (fetch_breach_data_v1 k e http2).result = false := by
    rw [hf2]; rfl
  have ht1v2 : truthyData (fetch_breach_data_v2 k e http1).result = false := by
    rw [hf1v2]; rfl
  have ht2v2 : truthyData (fetch_breach_data_v2 k e http2).result = false := by
    rw [hf2v2]; rfl
  rw [runV1_noData hk hk2 he ha ht1, runV1_noData hk hk2 he ha ht2,
      runV2_noData hk hk2 he ha ht1v2, runV2_noData hk hk2 he ha ht2v2,
      hf1, hf2, hf1v2, hf2v2]
  refine ⟨rfl, rfl, rfl, rfl, rfl, rfl, rfl, rfl, rfl, rfl, rfl, rfl⟩

/-- Witness for C9 at concrete oracles: the failing lookup shows the error
message and then the same no-breaches info the empty lookup shows. -/
theorem C9_error_empty_indistinguishable_witness :
    (runV1 envGood "a@b.com" "" httpDown).messages
      = [.error (fetchErrMsgV1 "a@b.com" "Connection refused"),
         .info noBreachesMsg]
    ∧ (runV1 envGood "a@b.com" "" httpEmpty).messages = [.info noBreachesMsg] :=
  ⟨(C9_error_empty_indistinguishable envGood "key123" "a@b.com" ""
      "Connection refused" httpDown httpEmpty
      (by decide) (by decide) (by decide) (by decide) (by decide) (by decide)).1,
   (C9_error_empty_indistinguishable envGood "key123" "a@b.com" ""
      "Connection refused" httpDown httpEmpty
      (by decide) (by decide) (by decide) (by decide) (by decide) (by decide)).2.1⟩

/-- Claim C10: a non-empty input without the at sign makes both scripts show
the invalid-email warning and issue no HTTP request at all: the run output is
exactly the warning with an empty request list, so the fetch branch is never
reached. -/
theorem C10_invalid_email_no_request (env : String → Option String)
    (k e q : String) (http : HttpRequest → HttpResult)
    (hk : env "RapidAPI" = some k) (hk2 : k.isEmpty = false)
    (he : e.isEmpty = false) (ha : strContains e "@" = false) :
    runV1 env e q http = ⟨[.warning invalidEmailMsg], [], false, none, [], []⟩
    ∧ runV2 env e http = ⟨[.warning invalidEmailMsg], [], false, none, []⟩ := by
  have he2 : (!e.isEmpty && strContains e "@") = false := by
    rw [ha, Bool.and_false]
  exact ⟨runV1_invalidEmail hk hk2 he2, runV2_invalidEmail hk hk2 he ha⟩

/-- Witness for C10: the concrete at-sign-free input nobody yields exactly the
warning and an empty request list in both versions. -/
theorem C10_invalid_email_no_request_witness :
    runV1 envGood "nobody" "" httpOkOne
      = ⟨[.warning invalidEmailMsg], [], false, none, [], []⟩
    ∧ runV2 envGood "nobody" httpOkOne
      = ⟨[.warning invalidEmailMsg], [], false, none, []⟩ :=
  C10_invalid_email_no_request envGood "key123" "nobody" "" httpOkOne
    (by decide) (by decide) (by decide) (by decide)
